import Mathlib

/-!
Verification of the idle-shutdown core of the AMP Auto Shutdown monitor
(`src/amp_autoshutdown/monitor.py` and the configuration data model of
`src/amp_autoshutdown/config.py`).

Modelling conventions:
* wall-clock timestamps (`datetime.utcnow()`) are integers counting seconds;
  `timedelta(minutes=m)` becomes the integer `60 * m`;
* a time-of-day (`datetime.time`) is a natural number of seconds since
  midnight, so Python's lexicographic comparison of `time` values becomes
  the order on `Nat`;
* Python dicts keyed by instance name become association lists with the
  dict's unique-key lookup (`List.lookup`);
* the external effects of one poll cycle (HTTP fetch, decide step, OS
  shutdown command) are recorded in an explicit `PollEffects` trace, and the
  fetch outcome is passed in as an `Option` (`none` = `AMPAPIError`).
-/

namespace AmpAutoShutdown

/-- `MaintenanceWindow` from `config.py`: a recurring window with a list of
day abbreviations (or `"*"`) and `start`/`end` wall-clock strings. The Python
attribute `end` is rendered `end_` because `end` is a Lean keyword. -/
structure MaintenanceWindow where
  days : List String
  start : String
  end_ : String

/-- The fields of `Config` from `config.py` that the monitor core reads
(string-only fields such as the base URL, API alias and log level carry no
logic and are omitted). -/
structure Config where
  poll_interval_seconds : Int
  idle_delay_minutes : Int
  global_player_threshold : Int
  per_instance_thresholds : List (String × Int)
  selected_instances : List String
  maintenance_windows : List MaintenanceWindow
  dry_run : Bool

/-- `ShutdownState` from `monitor.py`. -/
structure ShutdownState where
  last_activity : Int
  shutdown_triggered : Bool

/-- `ShutdownDecider` from `monitor.py`: the mutable `state` plus the
configuration snapshot and the derived `idle_delta` kept by
`update_config`. -/
structure ShutdownDecider where
  config : Config
  idle_delta : Int
  state : ShutdownState

/-- `ShutdownDecider.update_config`: stores the new config and recomputes
`self.idle_delta = timedelta(minutes=max(1, config.idle_delay_minutes))`. -/
def ShutdownDecider.update_config (d : ShutdownDecider) (config : Config) : ShutdownDecider :=
  { d with config := config, idle_delta := 60 * max 1 config.idle_delay_minutes }

/-- `ShutdownDecider.__init__`: fresh state with `last_activity = now`,
latch clear, then `update_config`. -/
def mkShutdownDecider (config : Config) (now : Int) : ShutdownDecider :=
  ShutdownDecider.update_config
    { config := config, idle_delta := 0,
      state := { last_activity := now, shutdown_triggered := false } } config

/-- `ShutdownDecider._threshold_for`:
`self.config.per_instance_thresholds.get(name, self.config.global_player_threshold)`. -/
def ShutdownDecider.threshold_for (d : ShutdownDecider) (instance_name : String) : Int :=
  (d.config.per_instance_thresholds.lookup instance_name).getD d.config.global_player_threshold

/-- The `above_threshold = any(count > self._threshold_for(name) ...)`
expression inside `register_observation`. -/
def ShutdownDecider.above_threshold (d : ShutdownDecider)
    (player_counts : List (String × Int)) : Bool :=
  player_counts.any fun p => decide (d.threshold_for p.1 < p.2)

/-- `ShutdownDecider.register_observation`, with the internal
`datetime.utcnow()` made an explicit `now` argument; returns the Python
return value paired with the updated decider. -/
def ShutdownDecider.register_observation (d : ShutdownDecider)
    (player_counts : List (String × Int)) (now : Int) : Bool × ShutdownDecider :=
  if player_counts.isEmpty then
    (false, d)
  else if d.above_threshold player_counts then
    (false, { d with state := { last_activity := now, shutdown_triggered := false } })
  else
    let idle_time := now - d.state.last_activity
    if d.idle_delta ≤ idle_time then
      if d.state.shutdown_triggered then
        (false, d)
      else
        (true, { d with state := { d.state with shutdown_triggered := true } })
    else
      (false, d)

/-- One decimal digit (`\d` of Python's `_strptime` regexes, restricted to
ASCII) converted to its value. -/
def digitVal (c : Char) : Nat := c.toNat - 48

/-- The `%H` directive of `datetime.strptime`: regex `2[0-3]|[0-1]\d|\d`
matched greedily at the head of the character list, returning the hour and
the unconsumed remainder. Alternation order never matters here because the
two-digit branches cannot be followed by the `:` literal after one digit. -/
def parseHour : List Char → Option (Nat × List Char)
  | c1 :: c2 :: rest =>
    if c1 = '2' ∧ '0' ≤ c2 ∧ c2 ≤ '3' then some (20 + digitVal c2, rest)
    else if ('0' ≤ c1 ∧ c1 ≤ '1') ∧ c2.isDigit then some (10 * digitVal c1 + digitVal c2, rest)
    else if c1.isDigit then some (digitVal c1, c2 :: rest)
    else none
  | [c1] => if c1.isDigit then some (digitVal c1, []) else none
  | [] => none

/-- The `%M` directive of `datetime.strptime`: regex `[0-5]\d|\d`. -/
def parseMinute : List Char → Option (Nat × List Char)
  | c1 :: c2 :: rest =>
    if ('0' ≤ c1 ∧ c1 ≤ '5') ∧ c2.isDigit then some (10 * digitVal c1 + digitVal c2, rest)
    else if c1.isDigit then some (digitVal c1, c2 :: rest)
    else none
  | [c1] => if c1.isDigit then some (digitVal c1, []) else none
  | [] => none

/-- `datetime.strptime(s, "%H:%M").time()` as seconds since midnight, `none`
on `ValueError` (no match, or unconverted data remaining). -/
def parseHHMM (s : String) : Option Nat :=
  match parseHour s.data with
  | none => none
  | some (h, rest) =>
    match rest with
    | ':' :: rest2 =>
      match parseMinute rest2 with
      | none => none
      | some (m, rest3) => if rest3.isEmpty then some (h * 3600 + m * 60) else none
    | _ => none

/-- `Monitor._time_in_window(current, start, end)`; `current` is a
time-of-day in seconds since midnight. -/
def time_in_window (current : Nat) (start end_ : String) : Bool :=
  match parseHHMM start, parseHHMM end_ with
  | some start_time, some end_time =>
    if start_time ≤ end_time then
      decide (start_time ≤ current ∧ current ≤ end_time)
    else
      decide (start_time ≤ current ∨ current ≤ end_time)
  | _, _ => false

/-- Python's `str.lower()` on the ASCII day strings the window matcher
compares, written over the character list so it evaluates by reduction. -/
def lower (s : String) : String := ⟨s.data.map Char.toLower⟩

/-- `Monitor._in_maintenance_window`, with `datetime.now()` split into the
`%a` day string (lowercased inside, as in the source) and the time of day. -/
def in_maintenance_window (windows : List MaintenanceWindow)
    (now_day_raw : String) (now_time : Nat) : Bool :=
  if windows.isEmpty then false
  else
    let now_day := lower now_day_raw
    windows.any fun w =>
      let days := (if w.days.isEmpty then ["*"] else w.days).map lower
      (days.contains "*" || days.contains now_day) && time_in_window now_time w.start w.end_

/-- `Monitor._trigger_shutdown`: takes the `shutdown_initiated` flag, returns
the updated flag paired with whether the OS shutdown command was executed
(`subprocess.run(SHUTDOWN_COMMAND)`; its own success or failure only gets
logged and is not modelled). -/
def trigger_shutdown (config : Config) (shutdown_initiated : Bool) : Bool × Bool :=
  if shutdown_initiated then (shutdown_initiated, false)
  else if config.dry_run then (true, false)
  else (true, true)

/-- The `Monitor` object state touched by `_poll_once`. -/
structure Monitor where
  decider : ShutdownDecider
  shutdown_initiated : Bool

/-- `Monitor.__init__` leaves `shutdown_initiated = False`; the decider is
installed by `run` before any poll. -/
def mkMonitor (decider : ShutdownDecider) : Monitor :=
  { decider := decider, shutdown_initiated := false }

/-- External effects of one `_poll_once` cycle: whether the player-count
fetch was attempted, whether `register_observation` was called, and whether
the OS shutdown command was executed. -/
structure PollEffects where
  fetched : Bool
  decided : Bool
  shutdown_command : Bool

/-- `Monitor._poll_once`, with `datetime.now()` split into day/time, the
decider's `datetime.utcnow()` as `now_utc`, and the AMP fetch outcome passed
in (`none` models `AMPAPIError`). -/
def poll_once (m : Monitor) (config : Config) (now_day : String) (now_time : Nat)
    (now_utc : Int) (fetch_result : Option (List (String × Int))) : Monitor × PollEffects :=
  if config.selected_instances.isEmpty then
    (m, { fetched := false, decided := false, shutdown_command := false })
  else if in_maintenance_window config.maintenance_windows now_day now_time then
    ({ m with decider :=
        { m.decider with state := { m.decider.state with last_activity := now_utc } } },
      { fetched := false, decided := false, shutdown_command := false })
  else
    match fetch_result with
    | none => (m, { fetched := true, decided := false, shutdown_command := false })
    | some player_counts =>
      let r := m.decider.register_observation player_counts now_utc
      if r.1 then
        let t := trigger_shutdown config m.shutdown_initiated
        ({ decider := r.2, shutdown_initiated := t.1 },
          { fetched := true, decided := true, shutdown_command := t.2 })
      else
        ({ m with decider := r.2 },
          { fetched := true, decided := true, shutdown_command := false })

/-- Number of OS shutdown commands executed by a sequence of
`_trigger_shutdown` calls threaded through the `shutdown_initiated` flag. -/
def count_shutdown_execs : List Config → Bool → Nat
  | [], _ => 0
  | config :: rest, shutdown_initiated =>
    let t := trigger_shutdown config shutdown_initiated
    (if t.2 then 1 else 0) + count_shutdown_execs rest t.1

/-! Concrete fixtures used by witnesses and counterexamples. -/

/-- The wraparound window of the spec example: every day, 22:00 to 02:00. -/
def sampleWindow : MaintenanceWindow :=
  { days := ["*"], start := "22:00", end_ := "02:00" }

/-- A minimal configuration: 1 minute idle delay, global threshold 0. -/
def wConfig : Config :=
  { poll_interval_seconds := 30, idle_delay_minutes := 1, global_player_threshold := 0,
    per_instance_thresholds := [], selected_instances := ["instance"],
    maintenance_windows := [], dry_run := true }

/-- A fresh decider on `wConfig` whose idle clock started at time 0. -/
def wDecider : ShutdownDecider := mkShutdownDecider wConfig 0

/-- Global threshold 5 with a per-instance override of 0 for `"mc"`. -/
def mcConfig : Config :=
  { poll_interval_seconds := 30, idle_delay_minutes := 10, global_player_threshold := 5,
    per_instance_thresholds := [("mc", 0)], selected_instances := ["mc"],
    maintenance_windows := [], dry_run := true }

/-- Decider on `mcConfig`. -/
def mcDecider : ShutdownDecider := mkShutdownDecider mcConfig 0

/-- Configuration with the wraparound window but no selected instances. -/
def cexConfig : Config :=
  { poll_interval_seconds := 30, idle_delay_minutes := 10, global_player_threshold := 0,
    per_instance_thresholds := [], selected_instances := [],
    maintenance_windows := [sampleWindow], dry_run := true }

/-- Monitor over `cexConfig` whose decider last saw activity at time 0. -/
def cexMonitor : Monitor := mkMonitor (mkShutdownDecider cexConfig 0)

/-- Configuration with the wraparound window and one selected instance. -/
def mwConfig : Config :=
  { cexConfig with selected_instances := ["instance"] }

/-- Monitor over `mwConfig` whose decider last saw activity at time 0. -/
def mwMonitor : Monitor := mkMonitor (mkShutdownDecider mwConfig 0)

/-! Helper lemmas. -/

/-- If every observed count is at or below its effective threshold, the
`above_threshold` test is false. -/
theorem above_threshold_eq_false_of_le (d : ShutdownDecider)
    (player_counts : List (String × Int))
    (h : ∀ p ∈ player_counts, p.2 ≤ d.threshold_for p.1) :
    d.above_threshold player_counts = false := by
  simp only [ShutdownDecider.above_threshold, List.any_eq_false, decide_eq_true_eq]
  intro p hp
  exact not_lt.mpr (h p hp)

/-- A nonempty list is not `isEmpty`. -/
theorem isEmpty_eq_false_of_ne_nil {α : Type} {l : List α} (h : l ≠ []) :
    l.isEmpty = false := by
  cases l with
  | nil => exact absurd rfl h
  | cons a t => rfl

/-! Theorems for the claims. -/

/-- Claim C9: `register_observation` on an empty count mapping returns
`false` and leaves `last_activity` and `shutdown_triggered` unchanged. -/
theorem register_observation_empty (d : ShutdownDecider) (now : Int) :
    (d.register_observation [] now).1 = false ∧
    (d.register_observation [] now).2.state.last_activity = d.state.last_activity ∧
    (d.register_observation [] now).2.state.shutdown_triggered = d.state.shutdown_triggered :=
  ⟨rfl, rfl, rfl⟩

/-- Claim C3: `update_config` never touches `last_activity` or
`shutdown_triggered`; it only replaces the threshold/delay configuration. -/
theorem update_config_frame (d : ShutdownDecider) (config : Config) :
    (d.update_config config).state.last_activity = d.state.last_activity ∧
    (d.update_config config).state.shutdown_triggered = d.state.shutdown_triggered ∧
    (d.update_config config).config = config :=
  ⟨rfl, rfl, rfl⟩

/-- Claim C1: from an unlatched state, a nonempty all-at-or-below-threshold
observation at a time at least `idle_delta` past `last_activity` returns
`true` and sets the latch, and any subsequent all-at-or-below-threshold
observation returns `false` until an activity reset. -/
theorem register_observation_edge_trigger
    (d : ShutdownDecider) (counts counts2 : List (String × Int)) (now now2 : Int)
    (hlatch : d.state.shutdown_triggered = false)
    (hne : counts ≠ [])
    (hbelow : ∀ p ∈ counts, p.2 ≤ d.threshold_for p.1)
    (hidle : d.idle_delta ≤ now - d.state.last_activity)
    (hne2 : counts2 ≠ [])
    (hbelow2 : ∀ p ∈ counts2, p.2 ≤ d.threshold_for p.1) :
    (d.register_observation counts now).1 = true ∧
    (d.register_observation counts now).2.state.shutdown_triggered = true ∧
    ((d.register_observation counts now).2.register_observation counts2 now2).1 = false := by
  have hE : counts.isEmpty = false := isEmpty_eq_false_of_ne_nil hne
  have hA : d.above_threshold counts = false := above_threshold_eq_false_of_le d counts hbelow
  have hfirst : d.register_observation counts now =
      (true, { d with state := { d.state with shutdown_triggered := true } }) := by
    simp [ShutdownDecider.register_observation, hE, hA, hidle, hlatch]
  refine ⟨by rw [hfirst], by rw [hfirst], ?_⟩
  rw [hfirst]
  set d' : ShutdownDecider := { d with state := { d.state with shutdown_triggered := true } }
  have hE2 : counts2.isEmpty = false := isEmpty_eq_false_of_ne_nil hne2
  have hA2 : d'.above_threshold counts2 = false :=
    above_threshold_eq_false_of_le d' counts2 hbelow2
  by_cases h2 : d'.idle_delta ≤ now2 - d'.state.last_activity
  · simp [ShutdownDecider.register_observation, hE2, hA2, h2, d']
  · simp [ShutdownDecider.register_observation, hE2, hA2, h2]

/-- Claim C1 witness: the idle trigger fires at time 120 on `wDecider`
(idle delay 60 seconds, last activity 0) and the immediately following call
returns `false`. -/
theorem register_observation_edge_trigger_witness :
    (wDecider.register_observation [("instance", 0)] 120).1 = true ∧
    ((wDecider.register_observation [("instance", 0)] 120).2.register_observation
        [("instance", 0)] 121).1 = false := by
  have h := register_observation_edge_trigger wDecider
    [("instance", 0)] [("instance", 0)] 120 121
    rfl (by decide) (by decide) (by decide) (by decide) (by decide)
  exact ⟨h.1, h.2.2⟩

/-- Claim C2: any observation containing a count strictly above its
effective threshold returns `false`, resets `last_activity` to the
observation time and clears the latch. -/
theorem register_observation_activity_reset
    (d : ShutdownDecider) (counts : List (String × Int)) (now : Int)
    (h : ∃ p ∈ counts, d.threshold_for p.1 < p.2) :
    (d.register_observation counts now).1 = false ∧
    (d.register_observation counts now).2.state.last_activity = now ∧
    (d.register_observation counts now).2.state.shutdown_triggered = false := by
  obtain ⟨p, hp, hgt⟩ := h
  have hE : counts.isEmpty = false := isEmpty_eq_false_of_ne_nil (List.ne_nil_of_mem hp)
  have hA : d.above_threshold counts = true := by
    simp only [ShutdownDecider.above_threshold, List.any_eq_true, decide_eq_true_eq]
    exact ⟨p, hp, hgt⟩
  simp [ShutdownDecider.register_observation, hE, hA]

/-- Claim C2 witness: a count of 5 against global threshold 0 resets the
idle clock of `wDecider` to the observation time 7. -/
theorem register_observation_activity_reset_witness :
    (wDecider.register_observation [("a", 5)] 7).1 = false ∧
    (wDecider.register_observation [("a", 5)] 7).2.state.last_activity = 7 ∧
    (wDecider.register_observation [("a", 5)] 7).2.state.shutdown_triggered = false :=
  register_observation_activity_reset wDecider [("a", 5)] 7 (by decide)

/-- Claim C4 counterexample: for the every-day window 22:00–02:00 the claim
asserts membership is `true` at 23:00 (82800 s), `true` at 03:00 (10800 s)
and `false` at 15:00 (54000 s); the code returns `false` at 03:00, so the
conjunction is false. -/
theorem in_maintenance_window_claim_cex :
    ¬ (in_maintenance_window [sampleWindow] "mon" 82800 = true ∧
       in_maintenance_window [sampleWindow] "mon" 10800 = true ∧
       in_maintenance_window [sampleWindow] "mon" 54000 = false) := by
  decide

/-- Claim C4 (amended): for the every-day window 22:00–02:00, membership is
`true` at 23:00, `false` at 03:00 and `false` at 15:00. -/
theorem in_maintenance_window_wraparound :
    in_maintenance_window [sampleWindow] "mon" 82800 = true ∧
    in_maintenance_window [sampleWindow] "mon" 10800 = false ∧
    in_maintenance_window [sampleWindow] "mon" 54000 = false := by
  decide

/-- Claim C5: if either bound fails to parse as HH:MM the time match is
`false`; otherwise with `start_time ≤ end_time` it holds iff
`start_time ≤ current ≤ end_time` (both ends inclusive), and with
`start_time > end_time` it holds iff `current ≥ start_time` or
`current ≤ end_time`. -/
theorem time_in_window_spec (current : Nat) (start end_ : String) :
    ((parseHHMM start = none ∨ parseHHMM end_ = none) →
      time_in_window current start end_ = false) ∧
    (∀ start_time end_time, parseHHMM start = some start_time →
      parseHHMM end_ = some end_time → start_time ≤ end_time →
      (time_in_window current start end_ = true ↔
        (start_time ≤ current ∧ current ≤ end_time))) ∧
    (∀ start_time end_time, parseHHMM start = some start_time →
      parseHHMM end_ = some end_time → end_time < start_time →
      (time_in_window current start end_ = true ↔
        (start_time ≤ current ∨ current ≤ end_time))) := by
  refine ⟨?_, ?_, ?_⟩
  · intro h
    rcases hs : parseHHMM start with _ | st <;>
      rcases he : parseHHMM end_ with _ | en <;>
        simp_all [time_in_window]
  · intro start_time end_time hs he hle
    simp [time_in_window, hs, he, hle]
  · intro start_time end_time hs he hlt
    simp [time_in_window, hs, he, not_le.mpr hlt]

/-- Claim C5 witness: an unparsable start bound never matches; an ordered
window 01:00–02:00 contains 01:00; the wraparound window 22:00–02:00 does
not contain 03:00. -/
theorem time_in_window_spec_witness :
    time_in_window 3600 "2x" "02:00" = false ∧
    (time_in_window 3600 "01:00" "02:00" = true ↔ (3600 ≤ 3600 ∧ 3600 ≤ 7200)) ∧
    (time_in_window 10800 "22:00" "02:00" = true ↔ (79200 ≤ 10800 ∨ 10800 ≤ 7200)) :=
  ⟨(time_in_window_spec 3600 "2x" "02:00").1 (Or.inl rfl),
   (time_in_window_spec 3600 "01:00" "02:00").2.1 3600 7200 rfl rfl (by decide),
   (time_in_window_spec 10800 "22:00" "02:00").2.2 79200 7200 rfl rfl (by decide)⟩

/-- Claim C8: the effective threshold is the per-instance entry when
present, the global threshold otherwise; "above threshold" is strict, so a
count equal to its effective threshold is not activity; and with global
threshold 5 and a per-instance override 0 for `"mc"`, the observation
`{"mc": 1}` is above threshold. -/
theorem threshold_for_spec (d : ShutdownDecider) (i : String) (v : Int) :
    (d.config.per_instance_thresholds.lookup i = some v → d.threshold_for i = v) ∧
    (d.config.per_instance_thresholds.lookup i = none →
      d.threshold_for i = d.config.global_player_threshold) ∧
    d.above_threshold [(i, d.threshold_for i)] = false ∧
    mcDecider.above_threshold [("mc", 1)] = true := by
  refine ⟨?_, ?_, ?_, by decide⟩
  · intro h
    simp [ShutdownDecider.threshold_for, h]
  · intro h
    simp [ShutdownDecider.threshold_for, h]
  · simp [ShutdownDecider.above_threshold]

/-- Claim C8 witness: on `mcDecider` the override gives threshold 0 for
`"mc"` while an absent key falls back to the global threshold 5, and a
count equal to its threshold is not above threshold. -/
theorem threshold_for_spec_witness :
    mcDecider.threshold_for "mc" = 0 ∧
    mcDecider.threshold_for "other" = 5 ∧
    mcDecider.above_threshold [("x", mcDecider.threshold_for "x")] = false :=
  ⟨(threshold_for_spec mcDecider "mc" 0).1 rfl,
   (threshold_for_spec mcDecider "other" 5).2.1 rfl,
   (threshold_for_spec mcDecider "x" 0).2.2.1⟩

/-- `register_observation` returns `true` only in the branch where the idle
time has reached `idle_delta`. -/
theorem register_true_idle (d : ShutdownDecider) (counts : List (String × Int)) (now : Int)
    (h : (d.register_observation counts now).1 = true) :
    d.idle_delta ≤ now - d.state.last_activity := by
  by_cases hE : counts.isEmpty
  · simp [ShutdownDecider.register_observation, hE] at h
  · by_cases hA : d.above_threshold counts
    · simp [ShutdownDecider.register_observation, hE, hA] at h
    · by_cases hidle : d.idle_delta ≤ now - d.state.last_activity
      · exact hidle
      · simp [ShutdownDecider.register_observation, hE, hA, hidle] at h

/-- Claim C10: `update_config` sets the idle delay to
`max(1, idle_delay_minutes)` minutes (60 seconds each), so a decider it
configured can only ever fire after at least 60 seconds of idle time. -/
theorem update_config_idle_delta (d : ShutdownDecider) (config : Config) :
    (d.update_config config).idle_delta = 60 * max 1 config.idle_delay_minutes ∧
    ∀ counts now, ((d.update_config config).register_observation counts now).1 = true →
      60 ≤ now - (d.update_config config).state.last_activity := by
  refine ⟨rfl, ?_⟩
  intro counts now h
  have h1 := register_true_idle (d.update_config config) counts now h
  have h2 : (60 : Int) ≤ (d.update_config config).idle_delta := by
    show (60 : Int) ≤ 60 * max 1 config.idle_delay_minutes
    have hm : (1 : Int) ≤ max 1 config.idle_delay_minutes := le_max_left 1 _
    linarith
  exact le_trans h2 h1

/-- Claim C10 witness: `wConfig` has a 1-minute idle delay; the trigger at
time 120 on `wDecider` certifies at least 60 seconds of idle time. -/
theorem update_config_idle_delta_witness :
    (wDecider.update_config wConfig).idle_delta = 60 * max 1 wConfig.idle_delay_minutes ∧
    (60 : Int) ≤ 120 - (wDecider.update_config wConfig).state.last_activity := by
  have h := update_config_idle_delta wDecider wConfig
  exact ⟨h.1, h.2 [("instance", 0)] 120 (by decide)⟩

/-- Claim C6 counterexample: with no selected instances the cycle returns
before the maintenance check, so even though the current time 23:00 is
inside the matching window, `last_activity` is not set to the current
time. -/
theorem poll_once_maintenance_cex :
    in_maintenance_window cexConfig.maintenance_windows "mon" 82800 = true ∧
    (poll_once cexMonitor cexConfig "mon" 82800 100 none).1.decider.state.last_activity ≠ 100 := by
  decide

/-- Claim C6 (amended): in any cycle with at least one selected instance
whose current time lies inside a matching maintenance window, `_poll_once`
sets the decider's `last_activity` to the current time and performs neither
the player-count fetch nor the decide step, so no shutdown command can be
executed in that cycle. -/
theorem poll_once_maintenance (m : Monitor) (config : Config) (now_day : String)
    (now_time : Nat) (now_utc : Int) (fetch_result : Option (List (String × Int)))
    (hsel : config.selected_instances ≠ [])
    (hwin : in_maintenance_window config.maintenance_windows now_day now_time = true) :
    (poll_once m config now_day now_time now_utc fetch_result).1.decider.state.last_activity
        = now_utc ∧
    (poll_once m config now_day now_time now_utc fetch_result).2.fetched = false ∧
    (poll_once m config now_day now_time now_utc fetch_result).2.decided = false ∧
    (poll_once m config now_day now_time now_utc fetch_result).2.shutdown_command = false := by
  have hE : config.selected_instances.isEmpty = false := isEmpty_eq_false_of_ne_nil hsel
  simp [poll_once, hE, hwin]

/-- Claim C6 witness: the cycle over `mwConfig` (one selected instance, the
wraparound window) at 23:00 resets the idle clock to the current time 100
and touches neither the fetch, the decide step, nor the shutdown command. -/
theorem poll_once_maintenance_witness :
    (poll_once mwMonitor mwConfig "mon" 82800 100 none).1.decider.state.last_activity = 100 ∧
    (poll_once mwMonitor mwConfig "mon" 82800 100 none).2.fetched = false ∧
    (poll_once mwMonitor mwConfig "mon" 82800 100 none).2.decided = false ∧
    (poll_once mwMonitor mwConfig "mon" 82800 100 none).2.shutdown_command = false :=
  poll_once_maintenance mwMonitor mwConfig "mon" 82800 100 none (by decide) (by decide)

/-- Once `shutdown_initiated` is set, no later `_trigger_shutdown` call
executes the OS command. -/
theorem count_shutdown_execs_initiated (cfgs : List Config) :
    count_shutdown_execs cfgs true = 0 := by
  induction cfgs with
  | nil => rfl
  | cons c rest ih => simpa [count_shutdown_execs, trigger_shutdown] using ih

/-- Claim C7: across any sequence of `_trigger_shutdown` calls starting with
the constructor's clear flag, the OS shutdown command is executed at most
once; once the flag is set every call is a no-op; and a call whose
configuration has `dry_run` set never executes the command. -/
theorem trigger_shutdown_at_most_once (cfgs : List Config) (config : Config)
    (shutdown_initiated : Bool) :
    count_shutdown_execs cfgs false ≤ 1 ∧
    count_shutdown_execs cfgs true = 0 ∧
    (config.dry_run = true → (trigger_shutdown config shutdown_initiated).2 = false) := by
  refine ⟨?_, count_shutdown_execs_initiated cfgs, ?_⟩
  · cases cfgs with
    | nil => simp [count_shutdown_execs]
    | cons c rest =>
      by_cases hd : c.dry_run <;>
        simp [count_shutdown_execs, trigger_shutdown, hd, count_shutdown_execs_initiated]
  · intro h
    cases shutdown_initiated <;> simp [trigger_shutdown, h]

/-- Claim C7 witness: two consecutive calls under `wConfig` (dry run) issue
no command, and a dry-run call from a clear flag executes nothing. -/
theorem trigger_shutdown_at_most_once_witness :
    count_shutdown_execs [wConfig, wConfig] false ≤ 1 ∧
    count_shutdown_execs [wConfig, wConfig] true = 0 ∧
    (trigger_shutdown wConfig false).2 = false := by
  have h := trigger_shutdown_at_most_once [wConfig, wConfig] wConfig false
  exact ⟨h.1, h.2.1, h.2.2 rfl⟩

end AmpAutoShutdown
